import Mathlib

/-!
Shallow embedding of `dictate.py` (whisper voice-dictation controller).

The program is a single-file push-to-talk dictation tool.  The embedding
models:

* `load_config` — configuration loading with defaults (the INI file is
  modelled as an already-parsed section/key lookup; `Path.home()` is
  abstracted as the literal `~`);
* the `Dictation` controller state (`recording`, `record_process`,
  `temp_file`, `model`, `model_error`) and its operations
  `notify`, `start_recording`, `stop_recording`, `toggle_recording`;
* side effects (subprocess spawns, prints, desktop notifications,
  clipboard writes, simulated keystrokes) as an explicit event list;
* fallible external calls (`subprocess.Popen`, `model.transcribe`,
  `xclip`, `xdotool`) as `Except`-valued oracles supplied by the caller;
  a Python exception that propagates out of a method is returned as
  `Option String`.

`stop_recording` is modelled at the point where `self.model_loaded.wait()`
has returned, so the final model-load outcome (`model` / `model_error`)
is already reflected in the state it receives.
-/

/-- Python truthiness of a string (`""` is falsy, everything else is
truthy). -/
def pyTruthyStr (s : String) : Bool := !s.data.isEmpty

/-- Python truthiness of an optional string (`None` and `""` are falsy,
every other string is truthy). -/
def pyTruthy : Option String → Bool
  | none => false
  | some s => pyTruthyStr s

/-- Python string slicing `s[:n]` (by code points). -/
def pySlice (s : String) (n : Nat) : String := ⟨s.data.take n⟩

/-- Python `str.strip()`: drop leading and trailing whitespace. -/
def pyStrip (s : String) : String :=
  ⟨((s.data.dropWhile Char.isWhitespace).reverse.dropWhile Char.isWhitespace).reverse⟩

/-- The configuration record returned by `load_config`. -/
structure Config where
  model : String
  device : String
  compute_type : String
  key : String
  auto_type : Bool
  notifications : Bool
deriving DecidableEq

/-- An already-parsed INI file: lookup from section and key to the raw
string value, `none` when the section or key is absent.  This models the
`configparser.ConfigParser` object after `config.read`. -/
structure IniData where
  get : String → String → Option String

/-- Truth values accepted by `configparser.getboolean`
(`BOOLEAN_STATES`, case-insensitive); any other value raises. -/
def pyParseBool (s : String) : Option Bool :=
  if s.toLower = "1" || s.toLower = "yes" || s.toLower = "true" || s.toLower = "on" then
    some true
  else if s.toLower = "0" || s.toLower = "no" || s.toLower = "false" || s.toLower = "off" then
    some false
  else none

/-- `config.get(section, key, fallback=fb)`: the parsed file's value when
present, otherwise the fallback.  When the config file is absent
(`file = none`) every lookup falls back. -/
def configGet (file : Option IniData) (sec key fb : String) : String :=
  match file with
  | none => fb
  | some f => (f.get sec key).getD fb

/-- `config.getboolean(section, key, fallback=fb)`: missing values fall
back, present values are coerced; an uncoercible value raises
`ValueError`. -/
def configGetBoolean (file : Option IniData) (sec key : String) (fb : Bool) :
    Except String Bool :=
  match file with
  | none => Except.ok fb
  | some f =>
    match f.get sec key with
    | none => Except.ok fb
    | some v =>
      match pyParseBool v with
      | some b => Except.ok b
      | none => Except.error ("ValueError: Not a boolean: " ++ v)

/-- `load_config()` from `dictate.py`: builds the settings dictionary
from the (possibly absent) config file, with the built-in defaults as
fallbacks. -/
def load_config (file : Option IniData) : Except String Config := do
  let auto_type ← configGetBoolean file "behavior" "auto_type" true
  let notifications ← configGetBoolean file "behavior" "notifications" true
  return {
    model := configGet file "whisper" "model" "base.en"
    device := configGet file "whisper" "device" "cpu"
    compute_type := configGet file "whisper" "compute_type" "int8"
    key := configGet file "hotkey" "key" "<alt>+o"
    auto_type := auto_type
    notifications := notifications
  }

/-- The defaults of `load_config` as a record. -/
def defaultConfig : Config :=
  { model := "base.en", device := "cpu", compute_type := "int8",
    key := "<alt>+o", auto_type := true, notifications := true }

/-- `CONFIG_PATH` (`Path.home()` abstracted as `~`). -/
def CONFIG_PATH : String := "~/.config/whisper/config.ini"

/-- `LAST_RECORDING_PATH` (`Path.home()` abstracted as `~`). -/
def LAST_RECORDING_PATH : String := "~/.cache/whisper/last_recording.wav"

/-- `__version__`. -/
def VERSION : String := "0.1.0"

/-- Observable side effects of the controller, in program order. -/
inductive Event where
  /-- `os.makedirs(dirname, exist_ok=True)`. -/
  | mkdirEv (path : String)
  /-- `subprocess.Popen(["parecord", ..., path])`. -/
  | spawnCapture (path : String)
  /-- `record_process.terminate(); record_process.wait()`. -/
  | terminateCapture
  /-- the `notify-send` subprocess run by `notify`. -/
  | notifyEv (title message icon : String) (timeout : Nat)
  /-- `print(...)`. -/
  | printEv (s : String)
  /-- `self.model.transcribe(temp_file, beam_size=5, vad_filter=True)`. -/
  | transcribeCall (path : Option String)
  /-- `xclip` subprocess receiving `text` on stdin. -/
  | clipboardCopy (text : String)
  /-- `xdotool type --clearmodifiers text`. -/
  | typeText (text : String)
deriving DecidableEq

/-- Opaque handle of the loaded `WhisperModel`. -/
abbrev ModelHandle := Unit

/-- Opaque handle of a spawned capture subprocess. -/
abbrev ProcHandle := Nat

/-- The mutable fields of the `Dictation` object that the claims are
about (`model_loaded` is implicit: `stop_recording` is modelled after
its `wait()` has returned). -/
structure DState where
  recording : Bool
  record_process : Option ProcHandle
  temp_file : Option String
  model : Option ModelHandle
  model_error : Option String
deriving DecidableEq

/-- The state produced by `Dictation.__init__` (before the background
model load finishes). -/
def initState : DState :=
  { recording := false, record_process := none, temp_file := none,
    model := none, model_error := none }

/-- A segment yielded by `model.transcribe`. -/
structure Segment where
  text : String
deriving DecidableEq

/-- `" ".join(segment.text.strip() for segment in segments)`. -/
def joinSegments (segs : List Segment) : String :=
  String.intercalate " " (segs.map fun s => pyStrip s.text)

/-- Outcomes of the external calls inside `stop_recording`'s `try`
block: the transcription (segments, or a raised exception), the `xclip`
spawn and the `xdotool` run. -/
structure StopEnv where
  transcribeRes : Except String (List Segment)
  clipboardRes : Except String Unit
  typeRes : Except String Unit

/-- `Dictation.notify`: returns immediately when notifications are
disabled, otherwise runs one `notify-send` subprocess. -/
def notify (notifications : Bool) (title message icon : String) (timeout : Nat) :
    List Event :=
  if !notifications then []
  else [Event.notifyEv title message icon timeout]

/-- `Dictation._load_model`, at the point where the `WhisperModel`
constructor has finished: on success stores the model, on failure stores
`str(e)` in `model_error`.  Either way `model_loaded` is set.  Prints
mirror the source (the cuda/cudnn hint is modelled by its guard on the
lowered error text). -/
def loadModel (st : DState) (result : Except String ModelHandle) (key : String) :
    DState × List Event :=
  match result with
  | Except.ok m =>
    ({ st with model := some m },
     [Event.printEv "Model loaded. Ready for dictation!",
      Event.printEv ("Press [" ++ key ++ "] to start/stop recording."),
      Event.printEv "Press Ctrl+C to quit."])
  | Except.error e =>
    let hint :=
      if (e.toLower.splitOn "cudnn").length > 1 || (e.toLower.splitOn "cuda").length > 1 then
        [Event.printEv "Hint: Try setting device = cpu in your config, or install cuDNN."]
      else []
    ({ st with model_error := some e },
     [Event.printEv ("Failed to load model: " ++ e)] ++ hint)

/-- `Dictation.start_recording`.  `spawn` is the outcome of
`subprocess.Popen(["parecord", ...])`; a spawn failure is re-raised to
the caller (third component `some e`), mirroring that the source wraps
the `Popen` call in no `try`. -/
def start_recording (st : DState) (notifications : Bool) (key : String)
    (spawn : Except String ProcHandle) :
    DState × List Event × Option String :=
  if st.recording || pyTruthy st.model_error then (st, [], none)
  else
    let st1 := { st with recording := true, temp_file := some LAST_RECORDING_PATH }
    let evMk := [Event.mkdirEv "~/.cache/whisper"]
    match spawn with
    | Except.error e => (st1, evMk, some e)
    | Except.ok h =>
      let st2 := { st1 with record_process := some h }
      (st2,
       evMk ++ [Event.spawnCapture LAST_RECORDING_PATH, Event.printEv "Recording..."]
            ++ notify notifications "Recording..." ("Press " ++ key ++ " to stop")
                 "audio-input-microphone" 30000,
       none)

/-- Notification preview built in `stop_recording`:
`text[:100] + ("..." if len(text) > 100 else "")`. -/
def preview (text : String) : String :=
  pySlice text 100 ++ (if 100 < text.length then "..." else "")

/-- The `try` block of `stop_recording`: transcribe, join the segments,
then either deliver the text (clipboard, optional typing, print,
notification) or report no speech.  Returns the events that happened and
`some e` when an exception was raised inside the block (including the
`AttributeError` from calling `.transcribe` on a `None` model). -/
def tryBlock (model : Option ModelHandle) (temp_file : Option String)
    (env : StopEnv) (auto_type notifications : Bool) :
    List Event × Option String :=
  match model with
  | none =>
    ([], some "AttributeError: 'NoneType' object has no attribute 'transcribe'")
  | some _ =>
    match env.transcribeRes with
    | Except.error e => ([Event.transcribeCall temp_file], some e)
    | Except.ok segs =>
      let text := joinSegments segs
      let evT := [Event.transcribeCall temp_file]
      if pyTruthyStr text then
        match env.clipboardRes with
        | Except.error e => (evT, some e)
        | Except.ok _ =>
          let evC := evT ++ [Event.clipboardCopy text]
          if auto_type then
            match env.typeRes with
            | Except.error e => (evC, some e)
            | Except.ok _ =>
              (evC ++ [Event.typeText text, Event.printEv ("Copied: " ++ text)]
                   ++ notify notifications "Copied!" (preview text)
                        "emblem-ok-symbolic" 3000,
               none)
          else
            (evC ++ [Event.printEv ("Copied: " ++ text)]
                 ++ notify notifications "Copied!" (preview text)
                      "emblem-ok-symbolic" 3000,
             none)
      else
        (evT ++ [Event.printEv "No speech detected"]
             ++ notify notifications "No speech detected" "Try speaking louder"
                  "dialog-warning" 2000,
         none)

/-- `Dictation.stop_recording`.  Modelled at the point where
`self.model_loaded.wait()` has returned, so `st.model` / `st.model_error`
carry the final load outcome.  Exceptions inside the `try` block are
caught and converted to an error print and a truncated error
notification; the method itself never raises. -/
def stop_recording (st : DState) (env : StopEnv) (auto_type notifications : Bool) :
    DState × List Event :=
  if !st.recording then (st, [])
  else
    let st1 := { st with recording := false }
    let stopPair :=
      match st1.record_process with
      | some _ => ({ st1 with record_process := none }, [Event.terminateCapture])
      | none => (st1, ([] : List Event))
    let st2 := stopPair.1
    let evs0 := stopPair.2
    let evs1 := evs0 ++ [Event.printEv "Transcribing..."]
        ++ notify notifications "Transcribing..." "Processing your speech"
             "emblem-synchronizing" 30000
    if pyTruthy st2.model_error then
      (st2, evs1 ++ [Event.printEv "Cannot transcribe: model failed to load"]
           ++ notify notifications "Error" "Model failed to load" "dialog-error" 3000)
    else
      let tb := tryBlock st2.model st2.temp_file env auto_type notifications
      match tb.2 with
      | none => (st2, evs1 ++ tb.1)
      | some e =>
        (st2, evs1 ++ tb.1 ++ [Event.printEv ("Error: " ++ e)]
             ++ notify notifications "Error" (pySlice e 50) "dialog-error" 3000)

/-- `Dictation.toggle_recording`. -/
def toggle_recording (st : DState) (env : StopEnv) (auto_type notifications : Bool)
    (key : String) (spawn : Except String ProcHandle) :
    DState × List Event × Option String :=
  if st.recording then
    let r := stop_recording st env auto_type notifications
    (r.1, r.2, none)
  else
    start_recording st notifications key spawn

/-- The spec's state invariant: `Recording` implies a live
`RecordingSession` (capture-process handle and output path) exists,
`Idle` implies no capture-process handle exists. -/
def stateInvariant (st : DState) : Prop :=
  (st.recording = true → st.record_process.isSome ∧ st.temp_file.isSome) ∧
  (st.recording = false → st.record_process = none)

instance (st : DState) : Decidable (stateInvariant st) := by
  unfold stateInvariant; infer_instance

/-- The state after `__init__` once the background load has succeeded. -/
def idleLoadedState : DState :=
  { recording := false, record_process := none, temp_file := none,
    model := some (), model_error := none }

/-- Whether an event is an invocation of the Output Dispatcher
(clipboard copy or keystroke simulation). -/
def isDispatchEvent : Event → Bool
  | Event.clipboardCopy _ => true
  | Event.typeText _ => true
  | _ => false

/-- The two startup lines printed by `main`. -/
def mainPrints : List String :=
  ["Whisper v" ++ VERSION, "Config: " ++ CONFIG_PATH]

/-- The line printed by `Dictation.__init__`. -/
def initPrint (model : String) : String :=
  "Loading Whisper model (" ++ model ++ ")..."

/-- The line printed by `Dictation.run`. -/
def runPrint (key : String) : String :=
  "Listening for hotkey: " ++ key

/-- Every console line a startup with configuration `cfg` can print up
to and including a successful model load: `main`, `__init__`, `run`, and
the success branch of `_load_model`. -/
def startupPrints (cfg : Config) : List String :=
  mainPrints ++ [initPrint cfg.model, runPrint cfg.key]
    ++ ["Model loaded. Ready for dictation!",
        "Press [" ++ cfg.key ++ "] to start/stop recording.",
        "Press Ctrl+C to quit."]

/-- Substring test on code points (Python `pat in s`). -/
def strContains (s pat : String) : Bool := decide (pat.data <:+: s.data)

/-- C10: when the notifications configuration flag is false, `notify`
returns immediately with no subprocess spawned and no other side
effect, for every title, message, icon and timeout. -/
theorem notify_disabled_is_noop (title message icon : String) (timeout : Nat) :
    notify false title message icon timeout = [] := rfl

/-- C8: calling `stop_recording` while not recording is a no-op: the
state is unchanged, no event happens, and nothing is raised (the
function returns normally). -/
theorem stop_recording_when_idle_noop (st : DState) (env : StopEnv)
    (auto_type notifications : Bool) (h : st.recording = false) :
    stop_recording st env auto_type notifications = (st, []) := by
  simp [stop_recording, h]

theorem stop_recording_when_idle_noop_witness :
    idleLoadedState.recording = false ∧
      stop_recording idleLoadedState ⟨Except.ok [], Except.ok (), Except.ok ()⟩ true true
        = (idleLoadedState, []) :=
  ⟨rfl, stop_recording_when_idle_noop idleLoadedState
    ⟨Except.ok [], Except.ok (), Except.ok ()⟩ true true rfl⟩

/-- C1: evaluation of `start_recording` at the failing input — Idle
state, model loaded, and the `parecord` spawn raising.  The recording
flag is left `true` (no rollback to Idle), the exception propagates to
the caller, and the only event is the `makedirs` call: in particular no
failure notification is issued, contradicting the claimed rollback. -/
theorem start_recording_spawn_failure_state :
    start_recording idleLoadedState true "<alt>+o"
        (Except.error "FileNotFoundError: parecord")
      = ({ recording := true, record_process := none,
           temp_file := some LAST_RECORDING_PATH,
           model := some (), model_error := none },
         [Event.mkdirEv "~/.cache/whisper"],
         some "FileNotFoundError: parecord") := rfl

/-- C3: the state invariant is violated after the same failing input —
a spawn failure in `start_recording` leaves `recording = true` with no
capture-process handle. -/
theorem spawn_failure_violates_state_invariant :
    ¬ stateInvariant
        (start_recording idleLoadedState true "<alt>+o"
          (Except.error "FileNotFoundError: parecord")).1 := by
  decide

/-- The `Dictation` state after a model load that failed with an
exception whose `str` is empty (for example `raise ValueError()`). -/
def emptyErrorState : DState :=
  { recording := false, record_process := none, temp_file := none,
    model := none, model_error := some "" }

/-- C4 counterexample: with `model_error` set to the empty string (a
load failure whose exception message is empty), an Idle toggle is NOT a
no-op — the guard `if self.recording or self.model_error` sees a falsy
value and a capture process is spawned, refuting the claim as stated. -/
theorem toggle_spawns_capture_despite_model_error :
    (toggle_recording emptyErrorState ⟨Except.ok [], Except.ok (), Except.ok ()⟩
        true true "<alt>+o" (Except.ok 1)).1.recording = true ∧
    Event.spawnCapture LAST_RECORDING_PATH
      ∈ (toggle_recording emptyErrorState ⟨Except.ok [], Except.ok (), Except.ok ()⟩
          true true "<alt>+o" (Except.ok 1)).2.1 := by
  constructor
  · rfl
  · decide

/-- C9 counterexample: startup does not print the active settings — no
console line printed by `main`, `__init__`, `run` or a successful
`_load_model` under the default configuration contains the compute-type
value `int8`, the device value `cpu`, or the flag name `auto_type`. -/
theorem settings_not_in_startup_output :
    ((startupPrints defaultConfig).any fun l =>
        strContains l "int8" || strContains l "cpu" || strContains l "auto_type")
      = false := by
  decide

/-- C9 amended: with the configuration file absent, `load_config`
returns exactly the defaults, and startup prints the version, the
config path, the model name and the hotkey (but not the remaining
settings). -/
theorem load_config_absent_yields_defaults :
    load_config none = Except.ok defaultConfig ∧
    startupPrints defaultConfig =
      ["Whisper v0.1.0", "Config: ~/.config/whisper/config.ini",
       "Loading Whisper model (base.en)...", "Listening for hotkey: <alt>+o",
       "Model loaded. Ready for dictation!",
       "Press [<alt>+o] to start/stop recording.", "Press Ctrl+C to quit."] := by
  constructor <;> rfl

/-- Helper: the truncation to 50 characters used for error
notifications never exceeds 50 characters. -/
theorem pySlice_length_le (s : String) (n : Nat) : (pySlice s n).length ≤ n := by
  show (s.data.take n).length ≤ n
  rw [List.length_take]
  exact Nat.min_le_left _ _

/-- C5: whenever the `try` block of `stop_recording` raises (any
exception of the Transcription Pipeline or the Output Dispatcher),
`stop_recording` catches it, logs it, emits the truncated (at most
50-character) error notification, and returns with the state Idle and
no capture process — it never re-raises. -/
theorem stop_recording_catches_pipeline_exceptions (st : DState) (env : StopEnv)
    (auto_type : Bool) (e : String)
    (hrec : st.recording = true)
    (herr : pyTruthy st.model_error = false)
    (hexc : (tryBlock st.model st.temp_file env auto_type true).2 = some e) :
    (stop_recording st env auto_type true).1.recording = false ∧
    (stop_recording st env auto_type true).1.record_process = none ∧
    Event.printEv ("Error: " ++ e) ∈ (stop_recording st env auto_type true).2 ∧
    Event.notifyEv "Error" (pySlice e 50) "dialog-error" 3000
      ∈ (stop_recording st env auto_type true).2 ∧
    (pySlice e 50).length ≤ 50 := by
  set_option maxRecDepth 2000 in
  rcases hrp : st.record_process with _ | p <;>
    simp [stop_recording, hrec, hrp, herr, hexc, notify, pySlice_length_le]

theorem stop_recording_catches_pipeline_exceptions_witness :
    (let st : DState := { recording := true, record_process := some 7,
                          temp_file := some LAST_RECORDING_PATH,
                          model := some (), model_error := none };
     let env : StopEnv := ⟨Except.error "RuntimeError: decoder failed",
                           Except.ok (), Except.ok ()⟩;
     (stop_recording st env true true).1.recording = false ∧
     (stop_recording st env true true).1.record_process = none ∧
     Event.printEv ("Error: " ++ "RuntimeError: decoder failed")
       ∈ (stop_recording st env true true).2 ∧
     Event.notifyEv "Error" (pySlice "RuntimeError: decoder failed" 50)
       "dialog-error" 3000 ∈ (stop_recording st env true true).2 ∧
     (pySlice "RuntimeError: decoder failed" 50).length ≤ 50) :=
  stop_recording_catches_pipeline_exceptions _ _ true "RuntimeError: decoder failed"
    rfl rfl rfl


/-- Helper: the empty string is falsy. -/
theorem pyTruthyStr_empty : pyTruthyStr "" = false := rfl

/-- Helper: a non-empty string is truthy. -/
theorem pyTruthyStr_of_ne (s : String) (h : s ≠ "") : pyTruthyStr s = true := by
  cases s with
  | mk data =>
    cases data with
    | nil => exact absurd rfl h
    | cons a l => rfl

/-- C6: when the transcription of a completed session joins to the
empty string, the Output Dispatcher is never invoked — no clipboard
copy and no keystroke simulation occur — and the "no speech detected"
notification is emitted instead. -/
theorem empty_transcript_skips_dispatch (st : DState) (env : StopEnv)
    (auto_type : Bool) (m : ModelHandle) (segs : List Segment)
    (hrec : st.recording = true)
    (herr : pyTruthy st.model_error = false)
    (hmodel : st.model = some m)
    (hres : env.transcribeRes = Except.ok segs)
    (hempty : joinSegments segs = "") :
    (stop_recording st env auto_type true).1.recording = false ∧
    (stop_recording st env auto_type true).2.filter isDispatchEvent = [] ∧
    Event.notifyEv "No speech detected" "Try speaking louder" "dialog-warning" 2000
      ∈ (stop_recording st env auto_type true).2 := by
  rcases hrp : st.record_process with _ | p <;>
    simp [stop_recording, tryBlock, hrec, hrp, herr, hmodel, hres, hempty,
      pyTruthyStr_empty, notify, isDispatchEvent]

theorem empty_transcript_skips_dispatch_witness :
    (let st : DState := { recording := true, record_process := some 7,
                          temp_file := some LAST_RECORDING_PATH,
                          model := some (), model_error := none };
     let env : StopEnv := ⟨Except.ok [], Except.ok (), Except.ok ()⟩;
     (stop_recording st env true true).1.recording = false ∧
     (stop_recording st env true true).2.filter isDispatchEvent = [] ∧
     Event.notifyEv "No speech detected" "Try speaking louder" "dialog-warning" 2000
       ∈ (stop_recording st env true true).2) :=
  empty_transcript_skips_dispatch _ _ true () [] rfl rfl rfl rfl rfl

/-- Helper: slicing a string no longer than the bound returns it
unchanged. -/
theorem pySlice_of_le (s : String) (n : Nat) (h : s.length ≤ n) : pySlice s n = s := by
  cases s with
  | mk data =>
    show String.mk (data.take n) = String.mk data
    rw [List.take_of_length_le h]

/-- Helper: for text within the 100-character bound the preview is the
text itself. -/
theorem preview_of_le (text : String) (h : text.length ≤ 100) :
    preview text = text := by
  have hlt : ¬ 100 < text.length := by omega
  rw [preview, if_neg hlt, pySlice_of_le text 100 h]
  exact congrArg String.mk (List.append_nil _)

/-- C7: for a non-empty transcript, the clipboard receives exactly the
joined transcript text (no truncation), the "Copied!" notification
carries the preview, and the preview equals the text when it is at most
100 characters and the 100-character prefix plus an ellipsis when it is
longer. -/
theorem nonempty_transcript_delivery (st : DState) (env : StopEnv)
    (auto_type : Bool) (m : ModelHandle) (segs : List Segment) (text : String)
    (hrec : st.recording = true)
    (herr : pyTruthy st.model_error = false)
    (hmodel : st.model = some m)
    (hres : env.transcribeRes = Except.ok segs)
    (htext : joinSegments segs = text)
    (hne : text ≠ "")
    (hclip : env.clipboardRes = Except.ok ())
    (htype : env.typeRes = Except.ok ()) :
    Event.clipboardCopy text ∈ (stop_recording st env auto_type true).2 ∧
    Event.notifyEv "Copied!" (preview text) "emblem-ok-symbolic" 3000
      ∈ (stop_recording st env auto_type true).2 ∧
    (text.length ≤ 100 → preview text = text) ∧
    (100 < text.length → preview text = pySlice text 100 ++ "...") := by
  have ht := pyTruthyStr_of_ne text hne
  refine ⟨?_, ?_, fun h => preview_of_le text h, fun h => by rw [preview, if_pos h]⟩ <;>
    rcases hrp : st.record_process with _ | p <;>
      rcases hat : auto_type <;>
        simp [stop_recording, tryBlock, hrec, hrp, herr, hmodel, hres, htext, ht,
          hclip, htype, notify]

theorem nonempty_transcript_delivery_witness :
    (let st : DState := { recording := true, record_process := some 7,
                          temp_file := some LAST_RECORDING_PATH,
                          model := some (), model_error := none };
     let env : StopEnv := ⟨Except.ok [{ text := "hello" }, { text := "world" }],
                           Except.ok (), Except.ok ()⟩;
     Event.clipboardCopy "hello world" ∈ (stop_recording st env true true).2 ∧
     Event.notifyEv "Copied!" (preview "hello world") "emblem-ok-symbolic" 3000
       ∈ (stop_recording st env true true).2 ∧
     ("hello world".length ≤ 100 → preview "hello world" = "hello world") ∧
     (100 < "hello world".length →
        preview "hello world" = pySlice "hello world" 100 ++ "...")) :=
  nonempty_transcript_delivery _ _ true () [{ text := "hello" }, { text := "world" }]
    "hello world" rfl rfl rfl rfl (by decide) (by decide) rfl rfl

/-- C4 amended: once the Model Loader has signaled failure with a
non-empty error message, every Idle toggle is a no-op that spawns no
capture process and raises nothing, and every Recording toggle
short-circuits — the state returns to Idle, the Transcription Pipeline
is never invoked, and the "Model failed to load" error notification is
emitted. -/
theorem model_failure_short_circuits (s : String) (hs : s ≠ "")
    (st1 st2 : DState) (env : StopEnv) (auto_type : Bool) (key : String)
    (spawn : Except String ProcHandle)
    (h1 : st1.model_error = some s) (h2 : st1.recording = false)
    (h3 : st2.model_error = some s) (h4 : st2.recording = true) :
    toggle_recording st1 env auto_type true key spawn = (st1, [], none) ∧
    ((toggle_recording st2 env auto_type true key spawn).1.recording = false ∧
     (∀ p, Event.transcribeCall p ∉ (toggle_recording st2 env auto_type true key spawn).2.1) ∧
     Event.notifyEv "Error" "Model failed to load" "dialog-error" 3000
       ∈ (toggle_recording st2 env auto_type true key spawn).2.1) := by
  have ht := pyTruthyStr_of_ne s hs
  refine ⟨?_, ?_, ?_, ?_⟩
  · simp [toggle_recording, h2, start_recording, pyTruthy, h1, ht]
  · rcases hrp : st2.record_process with _ | p <;>
      simp [toggle_recording, h4, stop_recording, hrp, pyTruthy, h3, ht, notify]
  · intro p
    rcases hrp : st2.record_process with _ | q <;>
      simp [toggle_recording, h4, stop_recording, hrp, pyTruthy, h3, ht, notify]
  · rcases hrp : st2.record_process with _ | p <;>
      simp [toggle_recording, h4, stop_recording, hrp, pyTruthy, h3, ht, notify]

theorem model_failure_short_circuits_witness :
    (let st1 : DState := { recording := false, record_process := none,
                           temp_file := none, model := none,
                           model_error := some "CUDA driver missing" };
     let st2 : DState := { recording := true, record_process := some 7,
                           temp_file := some LAST_RECORDING_PATH, model := none,
                           model_error := some "CUDA driver missing" };
     let env : StopEnv := ⟨Except.ok [], Except.ok (), Except.ok ()⟩;
     toggle_recording st1 env true true "<alt>+o" (Except.ok 1) = (st1, [], none) ∧
     ((toggle_recording st2 env true true "<alt>+o" (Except.ok 1)).1.recording = false ∧
      (∀ p, Event.transcribeCall p
              ∉ (toggle_recording st2 env true true "<alt>+o" (Except.ok 1)).2.1) ∧
      Event.notifyEv "Error" "Model failed to load" "dialog-error" 3000
        ∈ (toggle_recording st2 env true true "<alt>+o" (Except.ok 1)).2.1)) :=
  model_failure_short_circuits "CUDA driver missing" (by decide) _ _
    ⟨Except.ok [], Except.ok (), Except.ok ()⟩ true "<alt>+o" (Except.ok 1)
    rfl rfl rfl rfl

/-- Supporting lemma: any `stop_recording` call from a Recording state
leaves the controller Idle with no capture-process handle, on every
branch (model failure, pipeline error, empty or non-empty transcript). -/
theorem stop_recording_clears_session (st : DState) (env : StopEnv)
    (auto_type notifications : Bool) (h : st.recording = true) :
    (stop_recording st env auto_type notifications).1.recording = false ∧
    (stop_recording st env auto_type notifications).1.record_process = none := by
  rcases hrp : st.record_process with _ | p <;>
    by_cases he : pyTruthy st.model_error <;>
      rcases htb : (tryBlock st.model st.temp_file env auto_type notifications).2
          with _ | e <;>
        simp [stop_recording, h, hrp, he, htb]

/-- Supporting lemma: when the capture subprocess spawns successfully,
`start_recording` preserves the state invariant — the spawn-failure path
is the only step of the controller that breaks it. -/
theorem start_recording_spawn_ok_invariant (st : DState) (n : Bool)
    (key : String) (p : ProcHandle) (h : stateInvariant st) :
    stateInvariant (start_recording st n key (Except.ok p)).1 := by
  unfold start_recording
  by_cases hg : (st.recording || pyTruthy st.model_error) = true
  · simpa [hg] using h
  · simp only [Bool.not_eq_true] at hg
    simp [hg, stateInvariant]

/-- Supporting lemma: `toggle_recording` preserves the state invariant
whenever the capture spawn succeeds. -/
theorem toggle_spawn_ok_invariant (st : DState) (env : StopEnv)
    (auto_type notifications : Bool) (key : String) (p : ProcHandle)
    (h : stateInvariant st) :
    stateInvariant (toggle_recording st env auto_type notifications key (Except.ok p)).1 := by
  rcases hrec : st.recording
  · simpa [toggle_recording, hrec] using
      start_recording_spawn_ok_invariant st notifications key p h
  · have hc := stop_recording_clears_session st env auto_type notifications hrec
    refine ⟨fun hf => ?_, fun _ => ?_⟩
    · rw [toggle_recording, if_pos hrec] at hf
      rw [hc.1] at hf
      cases hf
    · rw [toggle_recording, if_pos hrec]
      exact hc.2
